import Mathlib

/-!
Shallow embedding of the QuestNavDash dashboards (src/reef.py and
src/questnav.py): the `DotNode`/`HexSideNode` data model, the click
handlers, the visual state reducer, the NetworkTables push/pull
encoding, the periodic sync sweep, and the QuestNav manager's
Apply/Enabled handlers.  GUI side effects (canvas `itemconfig` calls
and NetworkTables publishes) are reified as an explicit `Effect` trace;
float trigonometry is modelled over the reals.
-/

namespace Reef

/-- The two dot kinds of reef.py (`dot_type` is the string 'purple' or 'green'). -/
inductive DotType where
  | purple
  | green
deriving DecidableEq, Repr

/-- `DotNode.__init__`: one clickable marker.  `sub_reef_id` and `level_name`
default to `None` in Python, hence the `Option` fields. -/
structure DotNode where
  canvas_id : Nat
  type : DotType
  side_id : Nat
  sub_reef_id : Option Nat
  level_name : Option String
  has_algae : Bool
  is_active : Bool
  is_flagged : Bool
deriving DecidableEq, Repr

/-- `HexSideNode.__init__`: one trapezoid segment of the central hexagon. -/
structure HexSideNode where
  canvas_id : Nat
  side_id : Nat
  is_flagged : Bool
deriving DecidableEq, Repr

-- The COLORS dict of HexDataDashboard.__init__ (reef.py line 55).
def COLORS_bg : String := "#1a1a2e"
def COLORS_purple : String := "#8A2BE2"
def COLORS_purple_hover : String := "#be7dfd"
def COLORS_white_toggled : String := "#FFFFFF"
def COLORS_green : String := "#39FF14"
def COLORS_green_hover : String := "#98FB98"
def COLORS_green_toggled : String := "#1a3b1f"
def COLORS_red_flagged : String := "#FF4136"

/-- `self.level_map` (reef.py line 59): Python radius names to Java level
names; a missing key raises `KeyError` in Python, modelled as `none`. -/
def level_map (radius_name : String) : Option String :=
  if radius_name = "level_1" then some "L2"
  else if radius_name = "level_2" then some "L3"
  else if radius_name = "level_3" then some "L4"
  else none

/-- Python `f"{x}"` on an `int`-or-`None` attribute: `None` prints as "None". -/
def pyShowNat : Option Nat → String
  | some n => toString n
  | none => "None"

/-- Python `f"{x}"` on a `str`-or-`None` attribute. -/
def pyShowStr : Option String → String
  | some s => s
  | none => "None"

/-- Observable side effects of the dashboard: a canvas redraw
(`canvas.itemconfig(id, fill=color)`) or a NetworkTables publish
(`table.getStringTopic(path).publish().set(value)`). -/
inductive Effect where
  | itemconfig (canvas_id : Nat) (fill : String)
  | publish (path : String) (value : String)
deriving DecidableEq, Repr

/-- Whether an effect is a NetworkTables publish. -/
def Effect.isPub : Effect → Bool
  | .publish _ _ => true
  | .itemconfig _ _ => false

/-- `_update_dot_visuals` (reef.py lines 251-264), restricted to the color it
chooses: flagged → red; else active → white (purple dots) / dark green
(green dots); else hovered → hover color; else default color by type.
`hov` is `self.currently_hovered_id` (possibly `None`). -/
def dot_color (node : DotNode) (hov : Option Nat) : String :=
  if node.is_flagged then COLORS_red_flagged
  else if node.is_active then
    (if node.type = DotType.purple then COLORS_white_toggled else COLORS_green_toggled)
  else if hov = some node.canvas_id then
    (if node.type = DotType.purple then COLORS_purple_hover else COLORS_green_hover)
  else
    (if node.type = DotType.purple then COLORS_purple else COLORS_green)

/-- `_update_hex_side_visuals` (reef.py lines 266-269). -/
def hex_side_color (node : HexSideNode) : String :=
  if node.is_flagged then COLORS_red_flagged else COLORS_purple

/-- The string pushed for a dot by `publish_dot_state` (reef.py lines 177-182). -/
def encode_dot_state (node : DotNode) : String :=
  if node.is_flagged then "RESTRICTED"
  else if node.is_active then "GAMEPIECE"
  else "EMPTY"

/-- The topic path used by `publish_dot_state` (reef.py lines 184-190):
`Side{side_id}/Algae` for green dots, `Side{side_id}/{sub_reef_id}/{level_name}`
for purple dots. -/
def publish_dot_path (node : DotNode) : String :=
  match node.type with
  | DotType.green => "Side" ++ toString node.side_id ++ "/Algae"
  | DotType.purple =>
      "Side" ++ toString node.side_id ++ "/" ++ pyShowNat node.sub_reef_id
        ++ "/" ++ pyShowStr node.level_name

/-- `publish_dot_state` (reef.py lines 176-190) as an effect trace. -/
def publish_dot_state (node : DotNode) : List Effect :=
  [Effect.publish (publish_dot_path node) (encode_dot_state node)]

/-- `publish_hex_side_state` (reef.py lines 192-195). -/
def publish_hex_side_state (node : HexSideNode) : List Effect :=
  [Effect.publish ("Side" ++ toString node.side_id ++ "/State")
    (if node.is_flagged then "RESTRICTED" else "ALLOWED")]

/-- `handle_right_click` (reef.py lines 150-159), the per-node part: toggle
`is_flagged`; if now flagged, force `is_active := False`; then redraw and
publish.  Returns the mutated node and the emitted effects. -/
def handle_right_click (node : DotNode) (hov : Option Nat) : DotNode × List Effect :=
  let n1 : DotNode := { node with is_flagged := !node.is_flagged }
  let n2 : DotNode := if n1.is_flagged then { n1 with is_active := false } else n1
  (n2, Effect.itemconfig n2.canvas_id (dot_color n2 hov) :: publish_dot_state n2)

/-- `handle_left_click` (reef.py lines 161-173), the per-node part: a flagged
node is unflagged, otherwise `is_active` is toggled; green nodes then copy
`is_active` into `has_algae`; then redraw and publish. -/
def handle_left_click (node : DotNode) (hov : Option Nat) : DotNode × List Effect :=
  let n1 : DotNode :=
    if node.is_flagged then { node with is_flagged := false }
    else { node with is_active := !node.is_active }
  let n2 : DotNode :=
    if n1.type = DotType.green then { n1 with has_algae := n1.is_active } else n1
  (n2, Effect.itemconfig n2.canvas_id (dot_color n2 hov) :: publish_dot_state n2)

/-- `handle_hex_side_toggle` (reef.py lines 141-148). -/
def handle_hex_side_toggle (node : HexSideNode) : HexSideNode × List Effect :=
  let n : HexSideNode := { node with is_flagged := !node.is_flagged }
  (n, Effect.itemconfig n.canvas_id (hex_side_color n) :: publish_hex_side_state n)

/-- `stick_state_map` (reef.py line 211): NT string → (is_active, is_flagged);
Python `dict.get` returns `None` on a missing key, modelled as `none`. -/
def stick_state_map (s : String) : Option (Bool × Bool) :=
  if s = "EMPTY" then some (false, false)
  else if s = "GAMEPIECE" then some (true, false)
  else if s = "RESTRICTED" then some (false, true)
  else none

/-- `side_state_map` (reef.py line 212): NT string → is_flagged. -/
def side_state_map (s : String) : Option Bool :=
  if s = "ALLOWED" then some false
  else if s = "RESTRICTED" then some true
  else none

/-- The node a purple dot is created with in `draw_orbital_dots`
(reef.py lines 122-131): `level_name = self.level_map[radius_name]`. -/
def mkPurpleDot (canvas_id side_id sub_reef_id : Nat) (radius_name : String) : DotNode :=
  { canvas_id := canvas_id, type := DotType.purple, side_id := side_id,
    sub_reef_id := some sub_reef_id, level_name := level_map radius_name,
    has_algae := false, is_active := false, is_flagged := false }

/-- The node a green dot is created with in `draw_orbital_dots`
(reef.py lines 133-138). -/
def mkGreenDot (canvas_id side_id : Nat) : DotNode :=
  { canvas_id := canvas_id, type := DotType.green, side_id := side_id,
    sub_reef_id := none, level_name := none,
    has_algae := false, is_active := false, is_flagged := false }

/-! ## The periodic pull (`sync_from_nt`)

The dashboard state is the node registry plus `currently_hovered_id`; the
remote table is modelled by the values `getString` can return at the paths
`sync_from_nt` reads (a missing key makes `getString` return its default,
hence `Option String`).  Purple dots are indexed by side, sub-reef and the
position of their radius name in `inverse_level_map`'s iteration order
(`L2`/`level_1`, `L3`/`level_2`, `L4`/`level_3`). -/

/-- The registry of nodes built once by `draw_dashboard`, plus
`self.currently_hovered_id`.  All 6 hex sides, 6 green dots and 6×2×3 purple
dots exist after startup, so the lookups are total functions. -/
@[ext]
structure ReefState where
  hovered : Option Nat
  hex : Fin 6 → HexSideNode
  green : Fin 6 → DotNode
  purple : Fin 6 → Fin 2 → Fin 3 → DotNode

/-- The remote values readable at the paths `sync_from_nt` visits:
`Side{n}/State`, `Side{n}/Algae`, and `Side{n}/{b}/{L}` for the three
levels in `inverse_level_map` order. -/
structure NTTable where
  side_state : Fin 6 → Option String
  algae : Fin 6 → Option String
  stick : Fin 6 → Fin 2 → Fin 3 → Option String

/-- `getString(key, default)`: a missing key yields the default. -/
def getString (v : Option String) (default : String) : String := v.getD default

/-- The hex-side body of `sync_from_nt` (reef.py lines 218-224): decode with
`side_state_map.get(nt_val, False)` and mutate/redraw only on a difference. -/
def sync_hex_side (node : HexSideNode) (v : Option String) : HexSideNode × List Effect :=
  let nt_val := getString v "ALLOWED"
  let new_flagged := (side_state_map nt_val).getD false
  if node.is_flagged = new_flagged then (node, [])
  else
    let n : HexSideNode := { node with is_flagged := new_flagged }
    (n, [Effect.itemconfig n.canvas_id (hex_side_color n)])

/-- The green-dot body of `sync_from_nt` (reef.py lines 227-235): decode with
`stick_state_map.get(nt_val, (False, False))`; on a difference also set
`has_algae := new_active` and redraw. -/
def sync_green_dot (node : DotNode) (v : Option String) (hov : Option Nat) :
    DotNode × List Effect :=
  let nt_val := getString v "EMPTY"
  let p := (stick_state_map nt_val).getD (false, false)
  if node.is_active = p.1 ∧ node.is_flagged = p.2 then (node, [])
  else
    let n : DotNode := { node with is_active := p.1, is_flagged := p.2, has_algae := p.1 }
    (n, [Effect.itemconfig n.canvas_id (dot_color n hov)])

/-- The purple-dot body of `sync_from_nt` (reef.py lines 241-248): as the
green case but without the `has_algae` update. -/
def sync_purple_dot (node : DotNode) (v : Option String) (hov : Option Nat) :
    DotNode × List Effect :=
  let nt_val := getString v "EMPTY"
  let p := (stick_state_map nt_val).getD (false, false)
  if node.is_active = p.1 ∧ node.is_flagged = p.2 then (node, [])
  else
    let n : DotNode := { node with is_active := p.1, is_flagged := p.2 }
    (n, [Effect.itemconfig n.canvas_id (dot_color n hov)])

/-- `sync_from_nt` (reef.py lines 208-248).  The Python loop reads and writes
each node exactly once and never writes the table, so the swept state is
assembled pointwise; the effect trace follows the loop order (per side: hex
side, green dot, then sub-reefs 0,1 × levels L2,L3,L4). -/
def sync_from_nt (s : ReefState) (t : NTTable) : ReefState × List Effect :=
  let s' : ReefState :=
    { hovered := s.hovered
      hex := fun i => (sync_hex_side (s.hex i) (t.side_state i)).1
      green := fun i => (sync_green_dot (s.green i) (t.algae i) s.hovered).1
      purple := fun i b l => (sync_purple_dot (s.purple i b l) (t.stick i b l) s.hovered).1 }
  let effects :=
    (List.finRange 6).flatMap fun i =>
      (sync_hex_side (s.hex i) (t.side_state i)).2
        ++ (sync_green_dot (s.green i) (t.algae i) s.hovered).2
        ++ ((List.finRange 2).flatMap fun b =>
              (List.finRange 3).flatMap fun l =>
                (sync_purple_dot (s.purple i b l) (t.stick i b l) s.hovered).2)
  (s', effects)

/-- `periodic_update` (reef.py lines 198-206): when connected, pull from NT
(the status-label update is a local widget config, not a table access);
when disconnected, only the status label changes. -/
def periodic_update (connected : Bool) (s : ReefState) (t : NTTable) :
    ReefState × List Effect :=
  if connected then sync_from_nt s t else (s, [])

/-! ## Layout generator (`get_circle_position`)

The Python code computes with IEEE doubles; the trigonometry is modelled
over the reals. -/

/-- `self.CENTER_X` (reef.py line 52). -/
def CENTER_X : ℝ := 275

/-- `self.CENTER_Y` (reef.py line 52). -/
def CENTER_Y : ℝ := 275

/-- `math.radians(d)`. -/
noncomputable def math_radians (d : ℝ) : ℝ := d * Real.pi / 180

/-- `get_circle_position` (reef.py lines 294-298): polar to Cartesian around
the center, with 0° mapped to straight up by subtracting 90° first. -/
noncomputable def get_circle_position (radius angle_degrees : ℝ) : ℝ × ℝ :=
  let angle_radians := math_radians (angle_degrees - 90)
  (CENTER_X + radius * Real.cos angle_radians,
   CENTER_Y + radius * Real.sin angle_radians)

end Reef

namespace QuestNav

/-! Embedding of the QuestNav manager handlers (src/questnav.py) that the
claims touch: the Enabled checkbox toggle, the Apply button, and the
input sync.  Remote boolean and numeric keys are modelled as partial maps;
writes are reified. -/

/-- A write to the QuestNavManager table. -/
inductive QWrite where
  | setBool (key : String) (value : Bool)
  | setInt (key : String) (value : Int)
deriving DecidableEq, Repr

/-- `table.getBoolean(key, default)`. -/
def getBoolean (bools : String → Option Bool) (key : String) (default : Bool) : Bool :=
  (bools key).getD default

/-- Apply a boolean write to the boolean view of the table. -/
def applyBoolWrite (bools : String → Option Bool) (w : QWrite) : String → Option Bool :=
  match w with
  | QWrite.setBool k v => fun key => if key = k then some v else bools key
  | QWrite.setInt _ _ => bools

/-- `on_enabled_toggle` (questnav.py lines 186-197).  Disconnected: revert
`enabled_var` to `getBoolean("Enabled", enabled_var)` and write nothing.
Connected: publish `enabled_var` with `getBooleanTopic("enabled")`.
Returns the resulting `enabled_var` and the writes. -/
def on_enabled_toggle (connected : Bool) (bools : String → Option Bool)
    (enabled_var : Bool) : Bool × List QWrite :=
  if !connected then
    (getBoolean bools "Enabled" enabled_var, [])
  else
    (enabled_var, [QWrite.setBool "enabled" enabled_var])

/-- `sync_inputs_from_nt` (questnav.py lines 244-259), after the wait loop:
read `SelectedFieldIndex` and `SelectedLayoutIndex` (default −1) and
`getBoolean("Enabled", True)` into the three UI variables. -/
def sync_inputs_from_nt (numbers : String → Option Int)
    (bools : String → Option Bool) : Int × Int × Bool :=
  ((numbers "SelectedFieldIndex").getD (-1),
   (numbers "SelectedLayoutIndex").getD (-1),
   getBoolean bools "Enabled" true)

/-- A character Python's `str.strip()` removes (ASCII whitespace). -/
def isPySpace (c : Char) : Bool :=
  c = ' ' || c = '\t' || c = '\n' || c = '\x0d' || c = '\x0b' || c = '\x0c'

/-- Tail of a Python integer literal after its first digit: digits, with
single underscores allowed only between digits. -/
def digitTail : List Char → Bool
  | [] => true
  | '_' :: c :: cs => c.isDigit && digitTail cs
  | ['_'] => false
  | c :: cs => c.isDigit && digitTail cs

/-- A valid Python digit sequence: at least one digit, underscores only
between digits. -/
def digitSeq : List Char → Bool
  | [] => false
  | c :: cs => c.isDigit && digitTail cs

/-- Numeric value of a digit sequence, skipping underscores. -/
def digitsVal (cs : List Char) : Nat :=
  cs.foldl (fun acc c => if c = '_' then acc else acc * 10 + (c.toNat - 48)) 0

/-- Python `int(s)` on a decimal string: strip whitespace, optional sign,
then a digit sequence; `ValueError` is `none`. -/
def pyInt (s : String) : Option Int :=
  let cs := ((s.toList.dropWhile isPySpace).reverse.dropWhile isPySpace).reverse
  match cs with
  | '+' :: rest => if digitSeq rest then some (digitsVal rest : Int) else none
  | '-' :: rest => if digitSeq rest then some (-(digitsVal rest : Int)) else none
  | rest => if digitSeq rest then some (digitsVal rest : Int) else none

/-- `on_apply_clicked` (questnav.py lines 199-212).  Returns the modal
message shown (if any) and the writes performed: nothing when disconnected
or when either entry fails `int()`; otherwise the field index, layout index
and `Changed := True`. -/
def on_apply_clicked (connected : Bool) (field_var layout_var : String) :
    Option String × List QWrite :=
  if !connected then (some "Not Connected", [])
  else
    match pyInt field_var, pyInt layout_var with
    | some f, some l =>
        (none,
         [QWrite.setInt "SelectedFieldIndex" f,
          QWrite.setInt "SelectedLayoutIndex" l,
          QWrite.setBool "Changed" true])
    | _, _ => (some "Invalid Input", [])

end QuestNav

/-! # Theorems -/

namespace Reef

/-- C1: the color chosen by `_update_dot_visuals` is a pure function of
(is_active, is_flagged, hovered, node type) with strict priority
flagged > active > hover > default; in particular a flagged node is red
regardless of its active flag. -/
theorem dot_color_priority (node : DotNode) (hov : Option Nat) :
    (node.is_flagged = true → dot_color node hov = COLORS_red_flagged) ∧
    (node.is_flagged = false → node.is_active = true →
      dot_color node hov =
        (if node.type = DotType.purple then COLORS_white_toggled else COLORS_green_toggled)) ∧
    (node.is_flagged = false → node.is_active = false → hov = some node.canvas_id →
      dot_color node hov =
        (if node.type = DotType.purple then COLORS_purple_hover else COLORS_green_hover)) ∧
    (node.is_flagged = false → node.is_active = false → hov ≠ some node.canvas_id →
      dot_color node hov =
        (if node.type = DotType.purple then COLORS_purple else COLORS_green)) ∧
    (∀ (n2 : DotNode) (hov2 : Option Nat),
      n2.is_active = node.is_active → n2.is_flagged = node.is_flagged →
      n2.type = node.type → ((hov2 = some n2.canvas_id) ↔ (hov = some node.canvas_id)) →
      dot_color n2 hov2 = dot_color node hov) := by
  refine ⟨?_, ?_, ?_, ?_, ?_⟩
  · intro h; simp [dot_color, h]
  · intro h1 h2; simp [dot_color, h1, h2]
  · intro h1 h2 h3; simp [dot_color, h1, h2, h3]
  · intro h1 h2 h3; simp [dot_color, h1, h2, h3]
  · intro n2 hov2 ha hf ht hh
    by_cases hfl : node.is_flagged
    · simp [dot_color, hfl, hf ▸ hfl]
    · by_cases hac : node.is_active
      · simp only [dot_color]
        rw [ha, hf, ht]
        simp [hfl, hac]
      · by_cases hhov : hov = some node.canvas_id
        · simp only [dot_color]
          rw [ha, hf, ht]
          simp [hfl, hac, hh.mpr hhov, hhov]
        · simp only [dot_color]
          rw [ha, hf, ht]
          have : ¬(hov2 = some n2.canvas_id) := fun h => hhov (hh.mp h)
          simp [hfl, hac, this, hhov]

/-- C1 witness: the four priority cases evaluated on concrete purple dots. -/
theorem dot_color_priority_witness :
    dot_color { mkPurpleDot 1 0 0 "level_1" with is_flagged := true } none
      = COLORS_red_flagged ∧
    dot_color { mkPurpleDot 1 0 0 "level_1" with is_active := true } none
      = COLORS_white_toggled ∧
    dot_color (mkPurpleDot 1 0 0 "level_1") (some 1) = COLORS_purple_hover ∧
    dot_color (mkPurpleDot 1 0 0 "level_1") none = COLORS_purple :=
  ⟨(dot_color_priority _ none).1 rfl,
   (dot_color_priority _ none).2.1 rfl rfl,
   (dot_color_priority _ (some 1)).2.2.1 rfl rfl rfl,
   (dot_color_priority _ none).2.2.2.1 rfl rfl (by decide)⟩

/-- C2: left-click on an unflagged node toggles `is_active` (copying it to
`has_algae` on green nodes); left-click on a flagged node only clears the
flag; right-click toggles the flag and forces `is_active := false` when the
node becomes flagged; the three-step left/right/left trace from an
unflagged inactive node visits (active, unflagged), (inactive, flagged),
(inactive, unflagged). -/
theorem click_transitions (node : DotNode) (hov : Option Nat) :
    (node.is_flagged = false →
      (handle_left_click node hov).1.is_active = !node.is_active ∧
      (handle_left_click node hov).1.is_flagged = false ∧
      (node.type = DotType.green →
        (handle_left_click node hov).1.has_algae = !node.is_active)) ∧
    (node.is_flagged = true →
      (handle_left_click node hov).1.is_flagged = false ∧
      (handle_left_click node hov).1.is_active = node.is_active) ∧
    ((handle_right_click node hov).1.is_flagged = !node.is_flagged ∧
      (node.is_flagged = false → (handle_right_click node hov).1.is_active = false) ∧
      (node.is_flagged = true → (handle_right_click node hov).1.is_active = node.is_active)) ∧
    (node.is_active = false → node.is_flagged = false →
      (handle_left_click node hov).1.is_active = true ∧
      (handle_left_click node hov).1.is_flagged = false ∧
      (handle_right_click (handle_left_click node hov).1 hov).1.is_active = false ∧
      (handle_right_click (handle_left_click node hov).1 hov).1.is_flagged = true ∧
      (handle_left_click (handle_right_click (handle_left_click node hov).1 hov).1 hov).1.is_active = false ∧
      (handle_left_click (handle_right_click (handle_left_click node hov).1 hov).1 hov).1.is_flagged = false) := by
  obtain ⟨cid, ty, sid, sr, ln, ha, ia, fl⟩ := node
  cases ty <;> cases ia <;> cases fl <;>
    simp [handle_left_click, handle_right_click]

/-- C2 witness: the three-step trace on a fresh purple marker. -/
theorem click_transitions_witness :
    (mkPurpleDot 1 0 0 "level_1").is_active = false ∧
    (mkPurpleDot 1 0 0 "level_1").is_flagged = false ∧
    ((handle_left_click (mkPurpleDot 1 0 0 "level_1") none).1.is_active = true ∧
     (handle_left_click (mkPurpleDot 1 0 0 "level_1") none).1.is_flagged = false ∧
     (handle_right_click (handle_left_click (mkPurpleDot 1 0 0 "level_1") none).1 none).1.is_active = false ∧
     (handle_right_click (handle_left_click (mkPurpleDot 1 0 0 "level_1") none).1 none).1.is_flagged = true ∧
     (handle_left_click (handle_right_click (handle_left_click (mkPurpleDot 1 0 0 "level_1") none).1 none).1 none).1.is_active = false ∧
     (handle_left_click (handle_right_click (handle_left_click (mkPurpleDot 1 0 0 "level_1") none).1 none).1 none).1.is_flagged = false) :=
  ⟨rfl, rfl, (click_transitions (mkPurpleDot 1 0 0 "level_1") none).2.2.2 rfl rfl⟩

/-- C3: for the three valid (is_active, is_flagged) pairs, decoding the
pushed marker string with `stick_state_map` recovers the original pair. -/
theorem push_pull_round_trip (node : DotNode)
    (h : ¬(node.is_active = true ∧ node.is_flagged = true)) :
    stick_state_map (encode_dot_state node) = some (node.is_active, node.is_flagged) := by
  obtain ⟨cid, ty, sid, sr, ln, ha, ia, fl⟩ := node
  cases ia <;> cases fl <;> simp_all [encode_dot_state, stick_state_map]

/-- C3 witness: the round trip evaluated at a fresh green dot. -/
theorem push_pull_round_trip_witness :
    ¬((mkGreenDot 3 0).is_active = true ∧ (mkGreenDot 3 0).is_flagged = true) ∧
    stick_state_map (encode_dot_state (mkGreenDot 3 0)) = some (false, false) :=
  ⟨by decide, push_pull_round_trip (mkGreenDot 3 0) (by decide)⟩

/-- Re-running the hex-side pull body on its own output is a no-op. -/
theorem sync_hex_side_again (n : HexSideNode) (v : Option String) :
    sync_hex_side (sync_hex_side n v).1 v = ((sync_hex_side n v).1, []) := by
  unfold sync_hex_side
  by_cases h : n.is_flagged = (side_state_map (getString v "ALLOWED")).getD false <;>
    simp [h]

/-- Re-running the green-dot pull body on its own output is a no-op. -/
theorem sync_green_dot_again (n : DotNode) (v : Option String) (hov : Option Nat) :
    sync_green_dot (sync_green_dot n v hov).1 v hov = ((sync_green_dot n v hov).1, []) := by
  unfold sync_green_dot
  by_cases h1 : n.is_active = ((stick_state_map (getString v "EMPTY")).getD (false, false)).1 <;>
  by_cases h2 : n.is_flagged = ((stick_state_map (getString v "EMPTY")).getD (false, false)).2 <;>
    simp [h1, h2]

/-- Re-running the purple-dot pull body on its own output is a no-op. -/
theorem sync_purple_dot_again (n : DotNode) (v : Option String) (hov : Option Nat) :
    sync_purple_dot (sync_purple_dot n v hov).1 v hov = ((sync_purple_dot n v hov).1, []) := by
  unfold sync_purple_dot
  by_cases h1 : n.is_active = ((stick_state_map (getString v "EMPTY")).getD (false, false)).1 <;>
  by_cases h2 : n.is_flagged = ((stick_state_map (getString v "EMPTY")).getD (false, false)).2 <;>
    simp [h1, h2]

/-- First component of `sync_hex_side_again`. -/
theorem sync_hex_side_again_fst (n : HexSideNode) (v : Option String) :
    (sync_hex_side (sync_hex_side n v).1 v).1 = (sync_hex_side n v).1 := by
  rw [sync_hex_side_again]

/-- Second component of `sync_hex_side_again`. -/
theorem sync_hex_side_again_snd (n : HexSideNode) (v : Option String) :
    (sync_hex_side (sync_hex_side n v).1 v).2 = [] := by
  rw [sync_hex_side_again]

/-- First component of `sync_green_dot_again`. -/
theorem sync_green_dot_again_fst (n : DotNode) (v : Option String) (hov : Option Nat) :
    (sync_green_dot (sync_green_dot n v hov).1 v hov).1 = (sync_green_dot n v hov).1 := by
  rw [sync_green_dot_again]

/-- Second component of `sync_green_dot_again`. -/
theorem sync_green_dot_again_snd (n : DotNode) (v : Option String) (hov : Option Nat) :
    (sync_green_dot (sync_green_dot n v hov).1 v hov).2 = [] := by
  rw [sync_green_dot_again]

/-- First component of `sync_purple_dot_again`. -/
theorem sync_purple_dot_again_fst (n : DotNode) (v : Option String) (hov : Option Nat) :
    (sync_purple_dot (sync_purple_dot n v hov).1 v hov).1 = (sync_purple_dot n v hov).1 := by
  rw [sync_purple_dot_again]

/-- Second component of `sync_purple_dot_again`. -/
theorem sync_purple_dot_again_snd (n : DotNode) (v : Option String) (hov : Option Nat) :
    (sync_purple_dot (sync_purple_dot n v hov).1 v hov).2 = [] := by
  rw [sync_purple_dot_again]

/-- C4: each body of the pull loop emits at most one redraw, and applying
`sync_from_nt` a second time with the same remote values changes no node
and emits no effects at all. -/
theorem sync_from_nt_idempotent (s : ReefState) (t : NTTable) :
    (∀ (n : HexSideNode) (v : Option String), (sync_hex_side n v).2.length ≤ 1) ∧
    (∀ (n : DotNode) (v : Option String) (hov : Option Nat),
      (sync_green_dot n v hov).2.length ≤ 1) ∧
    (∀ (n : DotNode) (v : Option String) (hov : Option Nat),
      (sync_purple_dot n v hov).2.length ≤ 1) ∧
    (sync_from_nt (sync_from_nt s t).1 t).1 = (sync_from_nt s t).1 ∧
    (sync_from_nt (sync_from_nt s t).1 t).2 = [] := by
  refine ⟨?_, ?_, ?_, ?_, ?_⟩
  · intro n v; unfold sync_hex_side
    by_cases h : n.is_flagged = (side_state_map (getString v "ALLOWED")).getD false <;>
      simp [h]
  · intro n v hov; unfold sync_green_dot
    by_cases h1 : n.is_active = ((stick_state_map (getString v "EMPTY")).getD (false, false)).1 <;>
    by_cases h2 : n.is_flagged = ((stick_state_map (getString v "EMPTY")).getD (false, false)).2 <;>
      simp [h1, h2]
  · intro n v hov; unfold sync_purple_dot
    by_cases h1 : n.is_active = ((stick_state_map (getString v "EMPTY")).getD (false, false)).1 <;>
    by_cases h2 : n.is_flagged = ((stick_state_map (getString v "EMPTY")).getD (false, false)).2 <;>
      simp [h1, h2]
  · refine ReefState.ext rfl ?_ ?_ ?_
    · funext i
      exact sync_hex_side_again_fst (s.hex i) (t.side_state i)
    · funext i
      exact sync_green_dot_again_fst (s.green i) (t.algae i) s.hovered
    · funext i b l
      exact sync_purple_dot_again_fst (s.purple i b l) (t.stick i b l) s.hovered
  · simp [sync_from_nt, sync_hex_side_again_snd, sync_green_dot_again_snd,
      sync_purple_dot_again_snd]

/-- C5 counterexample: left-clicking a fresh green dot makes it active with
`has_algae = true`; right-clicking it then forces `is_active = false` but
leaves `has_algae = true`, so `has_algae` no longer mirrors `is_active`. -/
theorem has_algae_right_click_counterexample :
    (handle_left_click (mkGreenDot 7 0) none).1.is_active = true ∧
    (handle_left_click (mkGreenDot 7 0) none).1.has_algae = true ∧
    (handle_right_click (handle_left_click (mkGreenDot 7 0) none).1 none).1.is_active = false ∧
    (handle_right_click (handle_left_click (mkGreenDot 7 0) none).1 none).1.has_algae = true := by
  decide

/-- C5 amended: for green nodes, left-click always establishes
`has_algae = is_active`, the remote sync preserves it, and right-click
leaves `has_algae` untouched (so flagging an active green node breaks the
mirror until the next left-click or remote change). -/
theorem has_algae_mirror_amended (node : DotNode) (hov : Option Nat) (v : Option String)
    (hg : node.type = DotType.green) :
    (handle_left_click node hov).1.has_algae = (handle_left_click node hov).1.is_active ∧
    (node.has_algae = node.is_active →
      (sync_green_dot node v hov).1.has_algae = (sync_green_dot node v hov).1.is_active) ∧
    (handle_right_click node hov).1.has_algae = node.has_algae := by
  refine ⟨?_, ?_, ?_⟩
  · unfold handle_left_click
    by_cases h : node.is_flagged <;> simp [h, hg]
  · intro hm
    unfold sync_green_dot
    by_cases h1 : node.is_active = ((stick_state_map (getString v "EMPTY")).getD (false, false)).1 <;>
    by_cases h2 : node.is_flagged = ((stick_state_map (getString v "EMPTY")).getD (false, false)).2 <;>
      simp [h1, h2, hm]
  · unfold handle_right_click
    by_cases h : node.is_flagged <;> simp [h]

/-- C5 amended witness: the mirror evaluated on a fresh green dot. -/
theorem has_algae_mirror_amended_witness :
    (mkGreenDot 7 0).type = DotType.green ∧
    (mkGreenDot 7 0).has_algae = (mkGreenDot 7 0).is_active ∧
    (handle_left_click (mkGreenDot 7 0) none).1.has_algae
      = (handle_left_click (mkGreenDot 7 0) none).1.is_active ∧
    (sync_green_dot (mkGreenDot 7 0) (some "GAMEPIECE") none).1.has_algae
      = (sync_green_dot (mkGreenDot 7 0) (some "GAMEPIECE") none).1.is_active :=
  ⟨by decide, by decide,
   (has_algae_mirror_amended (mkGreenDot 7 0) none (some "GAMEPIECE") (by decide)).1,
   (has_algae_mirror_amended (mkGreenDot 7 0) none (some "GAMEPIECE") (by decide)).2.1 (by decide)⟩

/-- C6 counterexample: the purple marker for side 0, branch 0, innermost
radius publishes to path Side0/0/L2, whose level component is L2, not one
of the literals first, second, third. -/
theorem purple_path_level_counterexample :
    publish_dot_path (mkPurpleDot 0 0 0 "level_1") = "Side0/0/L2" ∧
    "Side0/0/L2" ≠ "Side0/0/first" ∧
    "Side0/0/L2" ≠ "Side0/0/second" ∧
    "Side0/0/L2" ≠ "Side0/0/third" := by
  refine ⟨rfl, ?_, ?_, ?_⟩ <;> decide

/-- C6 amended: for every side in 0..5, branch in 0..1 and radius name, the
purple marker's path is Side n / b / L with the level component L drawn
from L2, L3, L4 via `level_map` (one per concentric level), and the
published value is always one of EMPTY, GAMEPIECE, RESTRICTED. -/
theorem purple_path_amended (cid side sub : Nat) (r : String)
    (hs : side < 6) (hb : sub < 2)
    (hr : r = "level_1" ∨ r = "level_2" ∨ r = "level_3") :
    ∃ L, level_map r = some L ∧ (L = "L2" ∨ L = "L3" ∨ L = "L4") ∧
      ∀ a f alg : Bool,
        publish_dot_path { mkPurpleDot cid side sub r with
            is_active := a, is_flagged := f, has_algae := alg }
          = "Side" ++ toString side ++ "/" ++ toString sub ++ "/" ++ L ∧
        (encode_dot_state { mkPurpleDot cid side sub r with
            is_active := a, is_flagged := f, has_algae := alg } = "EMPTY" ∨
         encode_dot_state { mkPurpleDot cid side sub r with
            is_active := a, is_flagged := f, has_algae := alg } = "GAMEPIECE" ∨
         encode_dot_state { mkPurpleDot cid side sub r with
            is_active := a, is_flagged := f, has_algae := alg } = "RESTRICTED") := by
  have hpath : ∀ (L : String) (a f alg : Bool), level_map r = some L →
      publish_dot_path { mkPurpleDot cid side sub r with
        is_active := a, is_flagged := f, has_algae := alg }
        = "Side" ++ toString side ++ "/" ++ toString sub ++ "/" ++ L := by
    intro L a f alg hL
    simp [publish_dot_path, mkPurpleDot, pyShowNat, pyShowStr, hL]
  have henc : ∀ (a f alg : Bool),
      encode_dot_state { mkPurpleDot cid side sub r with
        is_active := a, is_flagged := f, has_algae := alg } = "EMPTY" ∨
      encode_dot_state { mkPurpleDot cid side sub r with
        is_active := a, is_flagged := f, has_algae := alg } = "GAMEPIECE" ∨
      encode_dot_state { mkPurpleDot cid side sub r with
        is_active := a, is_flagged := f, has_algae := alg } = "RESTRICTED" := by
    intro a f alg
    cases a <;> cases f <;> simp [encode_dot_state, mkPurpleDot]
  rcases hr with h | h | h <;> subst h
  · exact ⟨"L2", rfl, Or.inl rfl, fun a f alg => ⟨hpath "L2" a f alg rfl, henc a f alg⟩⟩
  · exact ⟨"L3", rfl, Or.inr (Or.inl rfl), fun a f alg => ⟨hpath "L3" a f alg rfl, henc a f alg⟩⟩
  · exact ⟨"L4", rfl, Or.inr (Or.inr rfl), fun a f alg => ⟨hpath "L4" a f alg rfl, henc a f alg⟩⟩

/-- C6 amended witness: the path and value sets evaluated at side 0, branch
0, innermost radius. -/
theorem purple_path_amended_witness :
    0 < 6 ∧ 0 < 2 ∧
    (∃ L, level_map "level_1" = some L ∧ (L = "L2" ∨ L = "L3" ∨ L = "L4") ∧
      ∀ a f alg : Bool,
        publish_dot_path { mkPurpleDot 0 0 0 "level_1" with
            is_active := a, is_flagged := f, has_algae := alg }
          = "Side" ++ toString 0 ++ "/" ++ toString 0 ++ "/" ++ L ∧
        (encode_dot_state { mkPurpleDot 0 0 0 "level_1" with
            is_active := a, is_flagged := f, has_algae := alg } = "EMPTY" ∨
         encode_dot_state { mkPurpleDot 0 0 0 "level_1" with
            is_active := a, is_flagged := f, has_algae := alg } = "GAMEPIECE" ∨
         encode_dot_state { mkPurpleDot 0 0 0 "level_1" with
            is_active := a, is_flagged := f, has_algae := alg } = "RESTRICTED")) :=
  ⟨by decide, by decide,
   purple_path_amended 0 0 0 "level_1" (by decide) (by decide) (Or.inl rfl)⟩

/-- The hex-side pull body never publishes. -/
theorem sync_hex_side_no_pub (n : HexSideNode) (v : Option String) :
    ∀ e ∈ (sync_hex_side n v).2, e.isPub = false := by
  unfold sync_hex_side
  by_cases h : n.is_flagged = (side_state_map (getString v "ALLOWED")).getD false <;>
    simp [h, Effect.isPub]

/-- The green-dot pull body never publishes. -/
theorem sync_green_dot_no_pub (n : DotNode) (v : Option String) (hov : Option Nat) :
    ∀ e ∈ (sync_green_dot n v hov).2, e.isPub = false := by
  unfold sync_green_dot
  by_cases h1 : n.is_active = ((stick_state_map (getString v "EMPTY")).getD (false, false)).1 <;>
  by_cases h2 : n.is_flagged = ((stick_state_map (getString v "EMPTY")).getD (false, false)).2 <;>
    simp [h1, h2, Effect.isPub]

/-- The purple-dot pull body never publishes. -/
theorem sync_purple_dot_no_pub (n : DotNode) (v : Option String) (hov : Option Nat) :
    ∀ e ∈ (sync_purple_dot n v hov).2, e.isPub = false := by
  unfold sync_purple_dot
  by_cases h1 : n.is_active = ((stick_state_map (getString v "EMPTY")).getD (false, false)).1 <;>
  by_cases h2 : n.is_flagged = ((stick_state_map (getString v "EMPTY")).getD (false, false)).2 <;>
    simp [h1, h2, Effect.isPub]

/-- C10: the periodic pull path (`periodic_update` / `sync_from_nt`) never
emits a publish effect, for any connection state, local state and remote
table; the user-interaction handlers each publish exactly once. -/
theorem periodic_update_never_publishes (connected : Bool) (s : ReefState) (t : NTTable)
    (node : DotNode) (side : HexSideNode) (hov : Option Nat) :
    ((periodic_update connected s t).2.all fun e => !e.isPub) = true ∧
    ((handle_left_click node hov).2.countP fun e => e.isPub) = 1 ∧
    ((handle_right_click node hov).2.countP fun e => e.isPub) = 1 ∧
    ((handle_hex_side_toggle side).2.countP fun e => e.isPub) = 1 := by
  refine ⟨?_, ?_, ?_, ?_⟩
  · unfold periodic_update
    cases connected
    · simp
    · simp only [if_pos, List.all_eq_true]
      intro e he
      simp only [sync_from_nt, List.mem_flatMap, List.mem_append] at he
      obtain ⟨i, -, hi⟩ := he
      rcases hi with (h | h) | h
      · simp [sync_hex_side_no_pub _ _ e h]
      · simp [sync_green_dot_no_pub _ _ _ e h]
      · obtain ⟨b, -, l, -, hl⟩ := h
        simp [sync_purple_dot_no_pub _ _ _ e hl]
  · simp [handle_left_click, publish_dot_state, Effect.isPub]
  · simp [handle_right_click, publish_dot_state, Effect.isPub]
  · simp [handle_hex_side_toggle, publish_hex_side_state, Effect.isPub]

/-- C9: `get_circle_position` is deterministic, the produced point lies at
distance `radius` from the center, and 0° maps to straight up (the point
directly above the center), via the −90° shift before conversion to
radians.  The Python float arithmetic is modelled over the reals. -/
theorem get_circle_position_on_circle (radius angle : ℝ) (h : 0 ≤ radius) :
    get_circle_position radius angle = get_circle_position radius angle ∧
    Real.sqrt (((get_circle_position radius angle).1 - CENTER_X) ^ 2 +
               ((get_circle_position radius angle).2 - CENTER_Y) ^ 2) = radius ∧
    get_circle_position radius 0 = (CENTER_X, CENTER_Y - radius) := by
  refine ⟨rfl, ?_, ?_⟩
  · have hx : (get_circle_position radius angle).1 - CENTER_X
        = radius * Real.cos (math_radians (angle - 90)) := by
      simp [get_circle_position]
    have hy : (get_circle_position radius angle).2 - CENTER_Y
        = radius * Real.sin (math_radians (angle - 90)) := by
      simp [get_circle_position]
    rw [hx, hy]
    have h1 := Real.sin_sq_add_cos_sq (math_radians (angle - 90))
    have hsum : (radius * Real.cos (math_radians (angle - 90))) ^ 2 +
        (radius * Real.sin (math_radians (angle - 90))) ^ 2 = radius ^ 2 := by
      calc (radius * Real.cos (math_radians (angle - 90))) ^ 2 +
          (radius * Real.sin (math_radians (angle - 90))) ^ 2
          = radius ^ 2 * (Real.sin (math_radians (angle - 90)) ^ 2 +
              Real.cos (math_radians (angle - 90)) ^ 2) := by ring
        _ = radius ^ 2 := by rw [h1]; ring
    rw [hsum]
    exact Real.sqrt_sq h
  · have hrad : math_radians (0 - 90) = -(Real.pi / 2) := by
      unfold math_radians; ring
    have hc : Real.cos (math_radians (0 - 90)) = 0 := by
      rw [hrad, Real.cos_neg, Real.cos_pi_div_two]
    have hs : Real.sin (math_radians (0 - 90)) = -1 := by
      rw [hrad, Real.sin_neg, Real.sin_pi_div_two]
    simp only [get_circle_position]
    rw [hc, hs]
    simp only [Prod.mk.injEq]
    constructor <;> ring

/-- C9 witness: the circle property at radius 5, angle 0. -/
theorem get_circle_position_on_circle_witness :
    (0 : ℝ) ≤ 5 ∧
    Real.sqrt (((get_circle_position 5 0).1 - CENTER_X) ^ 2 +
               ((get_circle_position 5 0).2 - CENTER_Y) ^ 2) = 5 ∧
    get_circle_position 5 0 = (CENTER_X, CENTER_Y - 5) :=
  ⟨by norm_num,
   (get_circle_position_on_circle 5 0 (by norm_num)).2.1,
   (get_circle_position_on_circle 5 0 (by norm_num)).2.2⟩

end Reef

namespace QuestNav

/-- C7: toggling the Enabled checkbox while connected writes the value
under key "enabled", while `sync_inputs_from_nt` and the
disconnected-revert path read key "Enabled"; so a value written by the
toggle is never read back (the read falls back to its default). -/
theorem enabled_key_mismatch :
    on_enabled_toggle true (fun _ => none) false = (false, [QWrite.setBool "enabled" false]) ∧
    (sync_inputs_from_nt (fun _ => some 0)
        (applyBoolWrite (fun _ => none) (QWrite.setBool "enabled" false))).2.2 = true ∧
    on_enabled_toggle false
        (applyBoolWrite (fun _ => none) (QWrite.setBool "enabled" false)) true
      = (true, []) := by
  refine ⟨?_, ?_, ?_⟩ <;> decide

/-- C8: when either entry fails `int()`, the Apply handler shows a modal
error and performs no write at all; when both parse, it writes
SelectedFieldIndex, SelectedLayoutIndex and Changed. -/
theorem apply_clicked_all_or_nothing (f l : String) :
    ((pyInt f = none ∨ pyInt l = none) →
      on_apply_clicked true f l = (some "Invalid Input", [])) ∧
    (∀ fi li : Int, pyInt f = some fi → pyInt l = some li →
      on_apply_clicked true f l =
        (none, [QWrite.setInt "SelectedFieldIndex" fi,
                QWrite.setInt "SelectedLayoutIndex" li,
                QWrite.setBool "Changed" true])) := by
  constructor
  · intro h
    unfold on_apply_clicked
    rcases h with h | h
    · cases hl : pyInt l <;> simp [h, hl]
    · cases hf : pyInt f <;> simp [h, hf]
  · intro fi li hf hl
    unfold on_apply_clicked
    simp [hf, hl]

/-- C8 witness: a non-numeric field entry is rejected with no writes, and
two numeric entries produce exactly the three writes. -/
theorem apply_clicked_all_or_nothing_witness :
    (pyInt "abc" = none ∨ pyInt "5" = none) ∧
    on_apply_clicked true "abc" "5" = (some "Invalid Input", []) ∧
    pyInt "3" = some 3 ∧ pyInt "5" = some 5 ∧
    on_apply_clicked true "3" "5" =
      (none, [QWrite.setInt "SelectedFieldIndex" 3,
              QWrite.setInt "SelectedLayoutIndex" 5,
              QWrite.setBool "Changed" true]) :=
  ⟨Or.inl (by decide),
   (apply_clicked_all_or_nothing "abc" "5").1 (Or.inl (by decide)),
   by decide, by decide,
   (apply_clicked_all_or_nothing "3" "5").2 3 5 (by decide) (by decide)⟩

end QuestNav
